import Mathlib

/-!
Verification development for the go-libspf2 wrapper (`spf2.go`).

The repository is a thin cgo binding around the libspf2 C library.  The Go
code under `src/` is embedded faithfully below: the `clientImpl` state, the
control flow of `Query`, `Close`, `newRequest`/`free`, and the per-call use
of the C boundary.  The C library itself is not part of the repository, so
the outcomes of the individual C calls made during one `Query` are modelled
as an explicit environment (`CEnv`), and the SPF evaluation engine behind
`SPF_request_query_mailfrom` is modelled from the specification
(`evalTerms`/`evalDomain` below).
-/

/-- The SPF result enumeration, one constructor per `SPF_RESULT_*` constant of
`spf2/spf.h` re-exported by the Go package. -/
inductive Result where
  | invalid
  | pass
  | fail
  | softfail
  | neutral
  | permerror
  | temperror
  | none_
  deriving DecidableEq, Repr

/-- Go constant `SPFResultINVALID = Result(C.SPF_RESULT_INVALID)`. -/
def SPFResultINVALID : Result := Result.invalid

/-- Go constant `SPFResultPASS`. -/
def SPFResultPASS : Result := Result.pass

/-- Go constant `SPFResultFAIL`. -/
def SPFResultFAIL : Result := Result.fail

/-- Go constant `SPFResultSOFTFAIL`. -/
def SPFResultSOFTFAIL : Result := Result.softfail

/-- Go constant `SPFResultNEUTRAL`. -/
def SPFResultNEUTRAL : Result := Result.neutral

/-- Go constant `SPFResultPERMERROR`. -/
def SPFResultPERMERROR : Result := Result.permerror

/-- Go constant `SPFResultTEMPERROR`. -/
def SPFResultTEMPERROR : Result := Result.temperror

/-- Go constant `SPFResultNONE`. -/
def SPFResultNONE : Result := Result.none_

/-- Modelled from the spec: the C library's `SPF_strresult`, which the Go
method `Result.String` calls.  The string forms are the RFC 7208 literals
listed in the spec ("Result enum wire values"), and the per-constant comments
in `spf2.go` lines 20-27 record the same mapping, with `(invalid)` for the
internal invalid value. -/
def SPF_strresult : Result → String
  | Result.invalid => "(invalid)"
  | Result.pass => "pass"
  | Result.fail => "fail"
  | Result.softfail => "softfail"
  | Result.neutral => "neutral"
  | Result.permerror => "permerror"
  | Result.temperror => "temperror"
  | Result.none_ => "none"

/-- Go method `func (r Result) String() string`, which returns
`C.GoString(C.SPF_strresult(C.SPF_result_t(r)))`. -/
def Result.String (r : Result) : String := SPF_strresult r

/-- The `SPF_E_SUCCESS` error code; all other `SPF_errcode_t` values are
non-zero and are modelled as bare naturals. -/
def SPF_E_SUCCESS : Nat := 0

/-- An `error` value as produced by the Go code: either
`errors.New("client already closed")` from `Query` on a closed client, or a
`*spfError` wrapping an `SPF_errcode_t` from one of the C calls. -/
inductive QueryError where
  | clientClosed
  | spf (code : Nat)
  deriving DecidableEq, Repr

/-- The Go struct `clientImpl { s *C.SPF_server_t }`: its only field is the
server handle, which is either live (`some ()`) or nil (`none`). -/
structure clientImpl where
  s : Option Unit
  deriving DecidableEq, Repr

/-- Outcomes of the C-boundary calls made during one `Query` invocation.
The C library is not part of the repository, so each call's return value is
an input to the embedded wrapper:
* `envFromStat` — return of `SPF_request_set_env_from` (0 = `SPF_E_SUCCESS`);
* `ipStat` — return of `SPF_request_set_ipv4_str`/`SPF_request_set_ipv6_str`;
  modelled from the spec: the setter validates that the address string is a
  well-formed IPv4/IPv6 address and returns a non-success status exactly when
  it is malformed;
* `queryStat` — return of `SPF_request_query_mailfrom`;
* `respResult` — `SPF_response_result` of the response the engine produced;
* `respExplanation` — modelled from the spec: the explanation string the
  engine resolves from an `exp=` modifier and stores in the response; the Go
  wrapper never reads it. -/
structure CEnv where
  envFromStat : Nat
  ipStat : Nat
  queryStat : Nat
  respResult : Result
  respExplanation : Option String
  deriving DecidableEq, Repr

/-- Ghost trace of one `Query` call, recording which steps of the Go body
ran: whether `newRequest` was called, whether the deferred `req.free()` ran,
whether `setEnvFrom`/`setIpAddr` were called, whether the C query
(`SPF_request_query_mailfrom`, i.e. all DNS work and policy evaluation) was
invoked, and whether the deferred `resp.free()` ran. -/
structure QueryTrace where
  requestConstructed : Bool
  requestFreed : Bool
  setEnvCalled : Bool
  setIpCalled : Bool
  cQueryCalled : Bool
  responseFreed : Bool
  deriving DecidableEq, Repr

/-- Full outcome of one `Query` call: the two values the Go method returns,
plus the receiver's state after the call and the ghost trace. -/
structure QueryOutcome where
  result : Result
  err : Option QueryError
  client : clientImpl
  trace : QueryTrace
  deriving DecidableEq, Repr

/-- Embedding of `func (s *clientImpl) Query(host string, ip net.IP)
(Result, error)` from `spf2.go` lines 46-64, with the C-call outcomes
supplied by `env`:
* if `s.s == nil`, return `(SPFResultINVALID, errors.New("client already
  closed"))` before constructing a request;
* otherwise construct a request (`newRequest`, freed by `defer req.free()`
  on every later path), and return `(SPFResultINVALID, err)` if
  `setEnvFrom` fails, `(SPFResultINVALID, err)` if `setIpAddr` fails,
  `(SPFResultNONE, err)` if `req.query()` fails, and
  `(resp.result(), nil)` otherwise. -/
def clientImpl.Query (c : clientImpl) (env : CEnv) : QueryOutcome :=
  if c.s = Option.none then
    { result := SPFResultINVALID
      err := Option.some QueryError.clientClosed
      client := c
      trace := ⟨false, false, false, false, false, false⟩ }
  else if env.envFromStat ≠ SPF_E_SUCCESS then
    { result := SPFResultINVALID
      err := Option.some (QueryError.spf env.envFromStat)
      client := c
      trace := ⟨true, true, true, false, false, false⟩ }
  else if env.ipStat ≠ SPF_E_SUCCESS then
    { result := SPFResultINVALID
      err := Option.some (QueryError.spf env.ipStat)
      client := c
      trace := ⟨true, true, true, true, false, false⟩ }
  else if env.queryStat ≠ SPF_E_SUCCESS then
    { result := SPFResultNONE
      err := Option.some (QueryError.spf env.queryStat)
      client := c
      trace := ⟨true, true, true, true, true, false⟩ }
  else
    { result := env.respResult
      err := Option.none
      client := c
      trace := ⟨true, true, true, true, true, true⟩ }

/-- The pair of values the Go `Query` actually returns to its caller:
`(Result, error)` — nothing else crosses the public boundary. -/
def clientImpl.QueryPublic (c : clientImpl) (env : CEnv) :
    Result × Option QueryError :=
  ((clientImpl.Query c env).result, (clientImpl.Query c env).err)

/-- Embedding of `func (s *clientImpl) Close()` from `spf2.go` lines 66-71.
The second component counts the `SPF_server_free` calls this invocation
performed (1 when the handle was live, 0 when already nil). -/
def clientImpl.Close (c : clientImpl) : clientImpl × Nat :=
  match c.s with
  | Option.some _ => ({ s := Option.none }, 1)
  | Option.none => (c, 0)

/-- Iterated `Close`: `closeN n c` calls `Close` `n` times and sums the
number of `SPF_server_free` calls performed. -/
def closeN : Nat → clientImpl → clientImpl × Nat
  | 0, c => (c, 0)
  | Nat.succ n, c =>
    let step := clientImpl.Close c
    let rest := closeN n step.1
    (rest.1, step.2 + rest.2)

/-!
The SPF evaluation engine behind `SPF_request_query_mailfrom` is not part of
this repository; the definitions below model it from the specification:
terms of a parsed policy record, the shared evaluation budget (at most 10
DNS lookups and 2 void lookups for the entire recursive evaluation,
exceeding either is `permerror`), left-to-right first-match evaluation with
qualifier-mapped results, `include` recursion (matching only on an inner
`pass`, turning an inner `none`/`permerror` into `permerror` and
propagating `temperror`, per RFC 7208), and `ip4` CIDR matching.
-/

/-- A mechanism qualifier: `+`, `-`, `~`, `?`. -/
inductive Qualifier where
  | plus
  | minus
  | tilde
  | question
  deriving DecidableEq, Repr

/-- Modelled from the spec: the result a matching mechanism yields for each
qualifier (`+`=pass, `-`=fail, `~`=softfail, `?`=neutral). -/
def qualResult : Qualifier → Result
  | Qualifier.plus => Result.pass
  | Qualifier.minus => Result.fail
  | Qualifier.tilde => Result.softfail
  | Qualifier.question => Result.neutral

/-- Modelled from the spec: the policy-record terms the claims exercise —
`all`, `include:<domain>`, `ip4:<net>/<len>` (the IPv4 network as a 32-bit
natural with a prefix length), and `exists:<domain>` (which consumes a DNS
lookup and can produce a void answer). -/
inductive Term where
  | all (q : Qualifier)
  | include_ (q : Qualifier) (domain : String)
  | ip4 (q : Qualifier) (net : Nat) (len : Nat)
  | exists_ (q : Qualifier) (domain : String)
  deriving DecidableEq, Repr

/-- Modelled from the spec: the mutable counters shared across one top-level
query — DNS lookups used and void lookups used. -/
structure Budget where
  dnsLookupsUsed : Nat
  voidLookupsUsed : Nat
  deriving DecidableEq, Repr

/-- The DNS-lookup limit of RFC 7208 (spec: `maxDNSLookups` default 10). -/
def maxDNSLookups : Nat := 10

/-- The void-lookup limit (spec: `maxVoidLookups` default 2). -/
def maxVoidLookups : Nat := 2

/-- IPv4 CIDR containment: `ip` lies in `net/len` iff the two addresses
agree on the first `len` bits. -/
def inCidr4 (ip net len : Nat) : Bool :=
  ip / 2 ^ (32 - len) = net / 2 ^ (32 - len)

/-- Modelled from the spec: left-to-right evaluation of a record's terms
against client IP `ip`, with `db` the parsed TXT policy per domain and
`dbA` the A-record answers per domain.  The first matching mechanism yields
its qualifier-mapped result; `include` consumes one DNS-lookup budget unit
and recurses; `exists` consumes one unit and counts an empty answer as a
void lookup; exceeding either shared budget limit yields `permerror`
immediately; no match yields `neutral`; `fuel` bounds the recursion depth
(exhaustion is the spec's recursion-limit `permerror`). -/
def evalTerms (db : String → Option (List Term)) (dbA : String → List Nat)
    (ip : Nat) : Nat → List Term → Budget → Result × Budget
  | 0, _, b => (Result.permerror, b)
  | Nat.succ _, [], b => (Result.neutral, b)
  | Nat.succ fuel, t :: rest, b =>
    match t with
    | Term.all q => (qualResult q, b)
    | Term.ip4 q net len =>
      if inCidr4 ip net len then (qualResult q, b)
      else evalTerms db dbA ip fuel rest b
    | Term.exists_ q dom =>
      if b.dnsLookupsUsed + 1 > maxDNSLookups then (Result.permerror, b)
      else
        let b1 : Budget := ⟨b.dnsLookupsUsed + 1, b.voidLookupsUsed⟩
        if (dbA dom).isEmpty then
          if b1.voidLookupsUsed + 1 > maxVoidLookups then (Result.permerror, b1)
          else evalTerms db dbA ip fuel rest ⟨b1.dnsLookupsUsed, b1.voidLookupsUsed + 1⟩
        else (qualResult q, b1)
    | Term.include_ q dom =>
      if b.dnsLookupsUsed + 1 > maxDNSLookups then (Result.permerror, b)
      else
        let b1 : Budget := ⟨b.dnsLookupsUsed + 1, b.voidLookupsUsed⟩
        match db dom with
        | Option.none => (Result.permerror, b1)
        | Option.some terms =>
          match evalTerms db dbA ip fuel terms b1 with
          | (Result.pass, b2) => (qualResult q, b2)
          | (Result.temperror, b2) => (Result.temperror, b2)
          | (Result.none_, b2) => (Result.permerror, b2)
          | (Result.permerror, b2) => (Result.permerror, b2)
          | (_, b2) => evalTerms db dbA ip fuel rest b2

/-- Modelled from the spec: evaluate the policy of `d` — no TXT policy at
all yields `none`, otherwise the record's terms are walked in order. -/
def evalDomain (db : String → Option (List Term)) (dbA : String → List Nat)
    (ip : Nat) (fuel : Nat) (d : String) (b : Budget) : Result × Budget :=
  match db d with
  | Option.none => (Result.none_, b)
  | Option.some terms => evalTerms db dbA ip fuel terms b

/-- No A answers anywhere: the `dbA` database used by the concrete
scenarios, none of which involve an `exists` mechanism. -/
def dbANone : String → List Nat := fun _ => []

/-- The 25 distinct include-target domain names of the lookup-budget
scenario. -/
def chainTargets : List String :=
  (List.range 25).map (fun i => "d" ++ toString i)

/-- DNS database of the budget scenario: `top` holds a record with 25
`include` mechanisms pointing at 25 distinct domains, each of which holds
the trivial record `v=spf1 -all`. -/
def chainDb : String → Option (List Term) := fun d =>
  if d = "top" then
    Option.some (chainTargets.map (fun t => Term.include_ Qualifier.plus t))
  else if chainTargets.contains d then
    Option.some [Term.all Qualifier.minus]
  else
    Option.none

/-- 192.0.2.1 as a 32-bit natural. -/
def ip19202021 : Nat := 192 * 2 ^ 24 + 0 * 2 ^ 16 + 2 * 2 ^ 8 + 1

/-- 192.0.2.2 as a 32-bit natural. -/
def ip19202022 : Nat := 192 * 2 ^ 24 + 0 * 2 ^ 16 + 2 * 2 ^ 8 + 2

/-- DNS database of the ip4 scenario: `example.org` holds the record
`v=spf1 ip4:192.0.2.1/32 -all`. -/
def ip4Db : String → Option (List Term) := fun d =>
  if d = "example.org" then
    Option.some [Term.ip4 Qualifier.plus ip19202021 32, Term.all Qualifier.minus]
  else
    Option.none

/-!
Helper lemmas, shared across the claim theorems below.
-/

/-- The shared budget counters never exceed their limits: one step of the
term walk either leaves the budget unchanged, or increments a counter only
after checking that the increment stays within its limit (returning
`permerror` otherwise). -/
lemma evalTerms_budget (db : String → Option (List Term)) (dbA : String → List Nat)
    (ip : Nat) :
    ∀ (fuel : Nat) (ts : List Term) (b : Budget),
      b.dnsLookupsUsed ≤ maxDNSLookups → b.voidLookupsUsed ≤ maxVoidLookups →
      (evalTerms db dbA ip fuel ts b).2.dnsLookupsUsed ≤ maxDNSLookups ∧
      (evalTerms db dbA ip fuel ts b).2.voidLookupsUsed ≤ maxVoidLookups := by
  intro fuel
  induction fuel with
  | zero => intro ts b hd hv; exact ⟨hd, hv⟩
  | succ f ih =>
    intro ts b hd hv
    cases ts with
    | nil => exact ⟨hd, hv⟩
    | cons t rest =>
      cases t with
      | all q => exact ⟨hd, hv⟩
      | ip4 q net len =>
        simp only [evalTerms]
        split
        · exact ⟨hd, hv⟩
        · exact ih rest b hd hv
      | exists_ q dom =>
        simp only [evalTerms]
        split
        · exact ⟨hd, hv⟩
        · rename_i hb
          split
          · split
            · rename_i hv2
              exact ⟨by show b.dnsLookupsUsed + 1 ≤ maxDNSLookups; omega, hv⟩
            · rename_i hv2
              exact ih rest ⟨b.dnsLookupsUsed + 1, b.voidLookupsUsed + 1⟩
                (by show b.dnsLookupsUsed + 1 ≤ maxDNSLookups; omega)
                (by show b.voidLookupsUsed + 1 ≤ maxVoidLookups; omega)
          · exact ⟨by show b.dnsLookupsUsed + 1 ≤ maxDNSLookups; omega, hv⟩
      | include_ q dom =>
        simp only [evalTerms]
        split
        · exact ⟨hd, hv⟩
        · rename_i hb
          rcases hdb : db dom with _ | terms
          · simp only [hdb]
            exact ⟨by show b.dnsLookupsUsed + 1 ≤ maxDNSLookups; omega, hv⟩
          · simp only [hdb]
            have hih := ih terms ⟨b.dnsLookupsUsed + 1, b.voidLookupsUsed⟩
              (by show b.dnsLookupsUsed + 1 ≤ maxDNSLookups; omega) hv
            rcases hres : evalTerms db dbA ip f terms ⟨b.dnsLookupsUsed + 1, b.voidLookupsUsed⟩
              with ⟨r, b2⟩
            rw [hres] at hih
            cases r
            · exact ih rest b2 hih.1 hih.2
            · exact hih
            · exact ih rest b2 hih.1 hih.2
            · exact ih rest b2 hih.1 hih.2
            · exact ih rest b2 hih.1 hih.2
            · exact hih
            · exact hih
            · exact hih

/-- Closing an already-closed client does nothing. -/
lemma close_closed (c : clientImpl) (h : c.s = Option.none) :
    clientImpl.Close c = (c, 0) := by
  cases c with
  | mk s =>
    cases s with
    | none => rfl
    | some u => exact absurd h (by simp)

/-- Any number of `Close` calls on an already-closed client leaves it
unchanged and frees nothing. -/
lemma closeN_closed (n : Nat) (c : clientImpl) (h : c.s = Option.none) :
    closeN n c = (c, 0) := by
  induction n with
  | zero => rfl
  | succ n ih => simp [closeN, close_closed c h, ih]

/-- Across any number of `Close` calls, `SPF_server_free` runs at most
once. -/
lemma closeN_le_one (n : Nat) (c : clientImpl) : (closeN n c).2 ≤ 1 := by
  cases hs : c.s with
  | none => simp [closeN_closed n c hs]
  | some u =>
    cases n with
    | zero => simp [closeN]
    | succ n =>
      have hc : clientImpl.Close c = (⟨Option.none⟩, 1) := by
        cases c with
        | mk s => cases hs; rfl
      simp [closeN, hc, closeN_closed n ⟨Option.none⟩ rfl]

/-!
Claim theorems.
-/

/-- Claim C1, counterexample.  The claim says that on an engine-level
`temperror`/`permerror` `Query` returns that same Result together with its
error context and never substitutes a different Result.  In the code the
only path that returns a non-nil error from a performed query is the one
where `SPF_request_query_mailfrom` reports a non-success status, and that
path (spf2.go line 60) hard-codes `SPFResultNONE`; the only path that
returns the engine's Result returns a nil error.  Concretely, with the
engine's evaluation at `permerror` (e.g. the DNS-lookup-limit error, whose
errcode is modelled as 23): when the C call reports the error status,
`Query` returns `none` — a substituted Result — and when it reports
success, `Query` returns `permerror` with no error context at all.  Either
way the claimed conjunction fails. -/
theorem c1_result_with_error_context_counterexample :
    clientImpl.QueryPublic ⟨Option.some ()⟩
        ⟨0, 0, 23, Result.permerror, Option.none⟩ =
      (SPFResultNONE, Option.some (QueryError.spf 23)) ∧
    SPFResultNONE ≠ Result.permerror ∧
    clientImpl.QueryPublic ⟨Option.some ()⟩
        ⟨0, 0, 0, Result.permerror, Option.none⟩ =
      (Result.permerror, Option.none) := by
  decide

/-- Claim C1 (amended): after validation succeeds, `Query` never raises —
it returns ordinary values on both remaining paths — but the Result and
the error context are never returned together: if the C query call reports
a non-success status (the path that carries the error context of
engine-level failures such as "DNS lookup limit exceeded"), `Query`
returns `SPFResultNONE` with that error, substituting `none` for the
engine's Result; only if the C call reports success is the engine's Result
(including `temperror`/`permerror`) returned unchanged, and then with a
nil error. -/
theorem c1_query_error_path (c : clientImpl) (env : CEnv)
    (hopen : c.s ≠ Option.none) (henv : env.envFromStat = SPF_E_SUCCESS)
    (hip : env.ipStat = SPF_E_SUCCESS) :
    (env.queryStat ≠ SPF_E_SUCCESS →
      clientImpl.QueryPublic c env =
        (SPFResultNONE, Option.some (QueryError.spf env.queryStat))) ∧
    (env.queryStat = SPF_E_SUCCESS →
      clientImpl.QueryPublic c env = (env.respResult, Option.none)) := by
  constructor <;> intro hq <;>
    simp [clientImpl.QueryPublic, clientImpl.Query, hopen, henv, hip, hq]

/-- Claim C1 witness: the amended theorem at a concrete closed input. -/
theorem c1_query_error_path_witness :
    clientImpl.QueryPublic ⟨Option.some ()⟩
        ⟨0, 0, 23, Result.permerror, Option.none⟩ =
      (SPFResultNONE, Option.some (QueryError.spf 23)) :=
  (c1_query_error_path ⟨Option.some ()⟩ ⟨0, 0, 23, Result.permerror, Option.none⟩
    (by decide) (by decide) (by decide)).1 (by decide)

/-- Claim C2: when the client-IP setter rejects its input (modelled from
the spec: the C setter returns a non-success status exactly on a malformed
IPv4/IPv6 address), `Query` returns the invalid Result together with a
non-nil error, and the C query call — all DNS work and policy evaluation —
is never reached, so the input is never silently coerced. -/
theorem c2_malformed_ip_local_invalid (c : clientImpl) (env : CEnv)
    (hip : env.ipStat ≠ SPF_E_SUCCESS) :
    (clientImpl.Query c env).result = SPFResultINVALID ∧
    ((clientImpl.Query c env).err).isSome = true ∧
    (clientImpl.Query c env).trace.cQueryCalled = false := by
  by_cases h1 : c.s = Option.none
  · simp [clientImpl.Query, h1]
  · by_cases h2 : env.envFromStat ≠ SPF_E_SUCCESS
    · simp [clientImpl.Query, h1, h2]
    · simp [clientImpl.Query, h1, h2, hip]

/-- Claim C2 witness: a concrete open client with a rejected client IP. -/
theorem c2_malformed_ip_local_invalid_witness :
    (clientImpl.Query ⟨Option.some ()⟩ ⟨0, 7, 0, Result.pass, Option.none⟩).result =
      SPFResultINVALID ∧
    ((clientImpl.Query ⟨Option.some ()⟩ ⟨0, 7, 0, Result.pass, Option.none⟩).err).isSome =
      true ∧
    (clientImpl.Query ⟨Option.some ()⟩
        ⟨0, 7, 0, Result.pass, Option.none⟩).trace.cQueryCalled = false :=
  c2_malformed_ip_local_invalid ⟨Option.some ()⟩ ⟨0, 7, 0, Result.pass, Option.none⟩
    (by decide)

/-- Claim C3, counterexample.  The claim says the Result returned by
`Query` is always one of the seven non-invalid values; but on a local
validation failure (here: an open client whose IP setter rejected the
address) `Query` returns `SPFResultINVALID`, which differs from all
seven. -/
theorem c3_never_invalid_counterexample :
    (clientImpl.Query ⟨Option.some ()⟩ ⟨0, 7, 0, Result.pass, Option.none⟩).result =
      SPFResultINVALID ∧
    SPFResultINVALID ≠ SPFResultPASS ∧
    SPFResultINVALID ≠ SPFResultFAIL ∧
    SPFResultINVALID ≠ SPFResultSOFTFAIL ∧
    SPFResultINVALID ≠ SPFResultNEUTRAL ∧
    SPFResultINVALID ≠ SPFResultPERMERROR ∧
    SPFResultINVALID ≠ SPFResultTEMPERROR ∧
    SPFResultINVALID ≠ SPFResultNONE := by
  decide

/-- Claim C3 (amended): the invalid Result is never returned as the final
result of a completed evaluation — whenever `Query` returns
`SPFResultINVALID` its error is non-nil, i.e. invalid only accompanies the
closed-client error or a pre-DNS validation error (the hypothesis on
`respResult` is the spec-modelled engine guarantee that a completed
evaluation's response result is never invalid). -/
theorem c3_invalid_only_with_error (c : clientImpl) (env : CEnv)
    (henv : env.respResult ≠ Result.invalid)
    (hres : (clientImpl.Query c env).result = Result.invalid) :
    ((clientImpl.Query c env).err).isSome = true := by
  by_cases h1 : c.s = Option.none
  · simp [clientImpl.Query, h1]
  · by_cases h2 : env.envFromStat ≠ SPF_E_SUCCESS
    · simp [clientImpl.Query, h1, h2]
    · by_cases h3 : env.ipStat ≠ SPF_E_SUCCESS
      · simp [clientImpl.Query, h1, h2, h3]
      · by_cases h4 : env.queryStat ≠ SPF_E_SUCCESS
        · simp [clientImpl.Query, h1, h2, h3, h4]
        · simp [clientImpl.Query, h1, h2, h3, h4, SPFResultNONE] at hres
          exact absurd hres henv

/-- Claim C3 witness: the amended theorem at a closed client. -/
theorem c3_invalid_only_with_error_witness :
    ((clientImpl.Query ⟨Option.none⟩ ⟨0, 0, 0, Result.pass, Option.none⟩).err).isSome =
      true :=
  c3_invalid_only_with_error ⟨Option.none⟩ ⟨0, 0, 0, Result.pass, Option.none⟩
    (by decide) (by decide)

/-- Claim C4: throughout one top-level evaluation the shared budget
satisfies `dnsLookupsUsed ≤ 10` and `voidLookupsUsed ≤ 2` — starting
within the limits, the budget after any (recursive) evaluation is still
within them, every would-be excess returning `permerror` instead of
counting — and, concretely, the record of 25 chained `include` mechanisms
whose 25 distinct target domains each hold `v=spf1 -all` evaluates to
`permerror` at the point the 11th DNS lookup would be attempted, with
exactly 10 lookups consumed. -/
theorem c4_budget_invariant (db : String → Option (List Term))
    (dbA : String → List Nat) (ip fuel : Nat) (d : String) (b : Budget)
    (hd : b.dnsLookupsUsed ≤ maxDNSLookups)
    (hv : b.voidLookupsUsed ≤ maxVoidLookups) :
    ((evalDomain db dbA ip fuel d b).2.dnsLookupsUsed ≤ maxDNSLookups ∧
     (evalDomain db dbA ip fuel d b).2.voidLookupsUsed ≤ maxVoidLookups) ∧
    evalDomain chainDb dbANone 0 100 "top" ⟨0, 0⟩ = (Result.permerror, ⟨10, 0⟩) := by
  refine ⟨?_, by decide⟩
  rcases hdb : db d with _ | terms <;> simp only [evalDomain, hdb]
  · exact ⟨hd, hv⟩
  · exact evalTerms_budget db dbA ip fuel terms b hd hv

/-- Claim C4 witness: the invariant applied to the 25-include scenario
itself, starting from the fresh budget. -/
theorem c4_budget_invariant_witness :
    ((evalDomain chainDb dbANone 0 100 "top" ⟨0, 0⟩).2.dnsLookupsUsed ≤ maxDNSLookups ∧
     (evalDomain chainDb dbANone 0 100 "top" ⟨0, 0⟩).2.voidLookupsUsed ≤ maxVoidLookups) ∧
    evalDomain chainDb dbANone 0 100 "top" ⟨0, 0⟩ = (Result.permerror, ⟨10, 0⟩) :=
  c4_budget_invariant chainDb dbANone 0 100 "top" ⟨0, 0⟩ (by decide) (by decide)

/-- Claim C5: for the record `v=spf1 ip4:192.0.2.1/32 -all`, the
spec-modelled evaluation yields `pass` for client IP 192.0.2.1 and `fail`
for 192.0.2.2, and the wrapper's success path hands any engine Result to
the caller unchanged with a nil error. -/
theorem c5_ip4_pass_fail :
    (evalDomain ip4Db dbANone ip19202021 100 "example.org" ⟨0, 0⟩).1 = Result.pass ∧
    (evalDomain ip4Db dbANone ip19202022 100 "example.org" ⟨0, 0⟩).1 = Result.fail ∧
    ∀ r : Result,
      clientImpl.QueryPublic ⟨Option.some ()⟩ ⟨0, 0, 0, r, Option.none⟩ =
        (r, Option.none) := by
  refine ⟨by decide, by decide, fun r => rfl⟩

/-- Claim C6, counterexample.  The claim says the optional explanation
string is part of `Query`'s externally visible return contract, populated
when a `-`-qualified mechanism matched and an `exp=` modifier resolved.
At exactly such a concrete input — the engine evaluated to `fail` and
resolved the explanation "denied by policy" into the response — `Query`
returns just `(fail, nil)`; the value the caller receives is identical to
the one for the run in which no explanation existed at all, so no
explanation crosses the public boundary. -/
theorem c6_explanation_counterexample :
    clientImpl.QueryPublic ⟨Option.some ()⟩
        ⟨0, 0, 0, Result.fail, Option.some "denied by policy"⟩ =
      (Result.fail, Option.none) ∧
    clientImpl.QueryPublic ⟨Option.some ()⟩ ⟨0, 0, 0, Result.fail, Option.none⟩ =
      (Result.fail, Option.none) := by
  decide

/-- Claim C6 (amended): `Query` returns only a Result and an error value;
the explanation the engine may have resolved is not part of the return
contract — the pair `Query` returns is independent of the explanation
stored in the response. -/
theorem c6_no_explanation_in_return (c : clientImpl) (env : CEnv)
    (e : Option String) :
    clientImpl.QueryPublic c { env with respExplanation := e } =
      clientImpl.QueryPublic c { env with respExplanation := Option.none } := by
  cases env
  rfl

/-- Claim C7: the string form of each non-invalid Result constant is the
corresponding RFC 7208 literal. -/
theorem c7_result_strings :
    Result.String SPFResultPASS = "pass" ∧
    Result.String SPFResultFAIL = "fail" ∧
    Result.String SPFResultSOFTFAIL = "softfail" ∧
    Result.String SPFResultNEUTRAL = "neutral" ∧
    Result.String SPFResultPERMERROR = "permerror" ∧
    Result.String SPFResultTEMPERROR = "temperror" ∧
    Result.String SPFResultNONE = "none" :=
  ⟨rfl, rfl, rfl, rfl, rfl, rfl, rfl⟩

/-- Claim C8: on an open client, every `Query` call constructs a request
and the deferred `req.free()` discards it before returning on every path
— success, validation failure and query failure alike — and the client's
only persistent state, the server handle, is returned unchanged. -/
theorem c8_request_per_call (c : clientImpl) (env : CEnv)
    (hopen : c.s ≠ Option.none) :
    (clientImpl.Query c env).trace.requestConstructed = true ∧
    (clientImpl.Query c env).trace.requestFreed = true ∧
    (clientImpl.Query c env).client = c := by
  by_cases h2 : env.envFromStat ≠ SPF_E_SUCCESS <;>
    by_cases h3 : env.ipStat ≠ SPF_E_SUCCESS <;>
      by_cases h4 : env.queryStat ≠ SPF_E_SUCCESS <;>
        simp [clientImpl.Query, hopen, h2, h3, h4]

/-- Claim C8 witness: a concrete open client on the success path. -/
theorem c8_request_per_call_witness :
    (clientImpl.Query ⟨Option.some ()⟩
        ⟨0, 0, 0, Result.pass, Option.none⟩).trace.requestConstructed = true ∧
    (clientImpl.Query ⟨Option.some ()⟩
        ⟨0, 0, 0, Result.pass, Option.none⟩).trace.requestFreed = true ∧
    (clientImpl.Query ⟨Option.some ()⟩ ⟨0, 0, 0, Result.pass, Option.none⟩).client =
      ⟨Option.some ()⟩ :=
  c8_request_per_call ⟨Option.some ()⟩ ⟨0, 0, 0, Result.pass, Option.none⟩ (by decide)

/-- Claim C9: on a client whose server handle is nil, `Query` returns the
invalid Result with the non-nil "client already closed" error, constructs
no request, and performs no SPF evaluation or DNS work (no C call of the
body runs). -/
theorem c9_query_after_close (c : clientImpl) (env : CEnv)
    (h : c.s = Option.none) :
    clientImpl.Query c env =
      { result := SPFResultINVALID
        err := Option.some QueryError.clientClosed
        client := c
        trace := ⟨false, false, false, false, false, false⟩ } := by
  simp [clientImpl.Query, h]

/-- Claim C9 witness: a concrete closed client. -/
theorem c9_query_after_close_witness :
    clientImpl.Query ⟨Option.none⟩ ⟨0, 0, 0, Result.pass, Option.none⟩ =
      { result := SPFResultINVALID
        err := Option.some QueryError.clientClosed
        client := ⟨Option.none⟩
        trace := ⟨false, false, false, false, false, false⟩ } :=
  c9_query_after_close ⟨Option.none⟩ ⟨0, 0, 0, Result.pass, Option.none⟩ (by decide)

/-- Claim C10: `Close` is idempotent — after the first `Close` the server
handle is nil, every further sequence of `Close` calls is a no-op leaving
the state unchanged and freeing nothing, and across any number of `Close`
calls the underlying `SPF_server_free` runs at most once. -/
theorem c10_close_idempotent (c : clientImpl) :
    ((clientImpl.Close c).1).s = Option.none ∧
    (∀ n, closeN n (clientImpl.Close c).1 = ((clientImpl.Close c).1, 0)) ∧
    (∀ n, (closeN n c).2 ≤ 1) := by
  have hclosed : ((clientImpl.Close c).1).s = Option.none := by
    cases c with
    | mk s => cases s <;> rfl
  exact ⟨hclosed, fun n => closeN_closed n (clientImpl.Close c).1 hclosed,
    fun n => closeN_le_one n c⟩
